import Mathlib

/-!
Verification of the budget extraction engine (`src/extract.js`).

The extraction core is a pure function from a SheetJS workbook to a JSON
result.  We embed it shallowly:

* JS cell values become the inductive `Value` (`null` also stands for
  `undefined`, which the source treats identically: `val == null` matches
  both, `cellVal` returns `null` for an absent cell, and `x || ''`
  collapses both to the empty string).
* JS numbers become `ℚ`; `Value.nan` stands for the non-finite numbers
  (`NaN`, `±Infinity`), which `safeFloat` maps to `0`.
* `Number(string)` is modelled for the decimal fragment of the JS grammar
  (optional sign, digits with optional fraction and exponent, `Infinity`,
  and whitespace trimming); the hex/octal/binary literal forms are not
  modelled and read as non-numeric.  `ToString` on a non-integral rational
  is rendered as `num/den` — a stand-in for JS float formatting; nothing
  below depends on its exact text, only that a number never stringifies to
  the empty string.
* A worksheet is an association list from 1-indexed `(row, column)` pairs
  to cells plus the 1-indexed end row of its `!ref` range; a workbook is an
  association list of named sheets (`SheetNames` is its key list).
-/

namespace BudgetSanity

/-- A JS value as SheetJS stores it in `cell.v`.  `null` models both
`null` and `undefined` (including the absent cell); `nan` models the
non-finite numbers `NaN` and `±Infinity`. -/
inductive Value where
  | null : Value
  | num (q : ℚ) : Value
  | nan : Value
  | str (s : String) : Value
  | bool (b : Bool) : Value
deriving DecidableEq

/-- JS truthiness: `null`/`undefined`, `0`, `NaN`, `""` and `false` are
falsy, everything else is truthy. -/
def jsTruthy : Value → Bool
  | Value.null => false
  | Value.num q => q != 0
  | Value.nan => false
  | Value.str s => s != ""
  | Value.bool b => b

/-- Decimal digits of a natural number, most significant first (`fuel`
bounds the recursion depth so the kernel can evaluate it; `n + 1` fuel is
always enough). -/
def natDecimalCore : Nat → Nat → List Char
  | 0, _ => []
  | fuel + 1, n =>
    if n < 10 then [Char.ofNat (48 + n)]
    else natDecimalCore fuel (n / 10) ++ [Char.ofNat (48 + n % 10)]

/-- Decimal representation of a natural number. -/
def natDecimal (n : Nat) : String := String.mk (natDecimalCore (n + 1) n)

/-- JS `ToString` applied to a (finite) number.  Integers print as in JS;
a non-integral rational prints as `num/den`, standing in for JS float
formatting (only non-emptiness matters below). -/
def jsNumToString (q : ℚ) : String :=
  (if q.num < 0 then "-" else "") ++ natDecimal q.num.natAbs ++
    (if q.den = 1 then "" else "/" ++ natDecimal q.den)

/-- JS `String(v)`. -/
def jsToString : Value → String
  | Value.null => "null"
  | Value.num q => jsNumToString q
  | Value.nan => "NaN"
  | Value.str s => s
  | Value.bool b => if b then "true" else "false"

/-- The whitespace characters JS `trim()` removes (ASCII fragment). -/
def isJsSpace (c : Char) : Bool :=
  c == ' ' || c == '\t' || c == '\n' || c == '\r' || c == '\x0b' || c == '\x0c'

/-- JS `s.trim()`. -/
def jsTrim (s : String) : String :=
  String.mk (((s.data.dropWhile isJsSpace).reverse.dropWhile isJsSpace).reverse)

/-- ASCII lowercasing of one character. -/
def lowerChar (c : Char) : Char :=
  if 65 ≤ c.toNat ∧ c.toNat ≤ 90 then Char.ofNat (c.toNat + 32) else c

/-- JS `s.toLowerCase()` (ASCII fragment). -/
def jsLower (s : String) : String := String.mk (s.data.map lowerChar)

/-- Value of a nonempty all-digit character list, `none` otherwise. -/
def digitsVal? (cs : List Char) : Option Nat :=
  if cs.isEmpty || !(cs.all Char.isDigit) then none
  else some (cs.foldl (fun a c => a * 10 + (c.toNat - 48)) 0)

/-- Mantissa of a JS decimal literal: digits, optionally with a decimal
point, at least one digit overall (`"1"`, `"1."`, `".5"`, `"1.5"`). -/
def mantissaVal? (cs : List Char) : Option ℚ :=
  match cs.span Char.isDigit with
  | (ip, []) => (digitsVal? ip).map (fun n => (n : ℚ))
  | (ip, c :: fp) =>
    if c = '.' then
      if ip.isEmpty && fp.isEmpty then none
      else if fp.all Char.isDigit then
        some ((ip.foldl (fun a d => a * 10 + (d.toNat - 48)) 0 : Nat) +
          ((fp.foldl (fun a d => a * 10 + (d.toNat - 48)) 0 : Nat) : ℚ) /
            (10 : ℚ) ^ fp.length)
      else none
    else none

/-- Exponent part of a JS decimal literal (after the `e`/`E`). -/
def expVal? (cs : List Char) : Option Int :=
  match cs with
  | '+' :: ds => (digitsVal? ds).map (fun n => (n : Int))
  | '-' :: ds => (digitsVal? ds).map (fun n => -(n : Int))
  | ds => (digitsVal? ds).map (fun n => (n : Int))

/-- Unsigned JS decimal literal: mantissa with optional exponent. -/
def unsignedVal? (cs : List Char) : Option ℚ :=
  match cs.span (fun c => !(c == 'e' || c == 'E')) with
  | (mant, []) => mantissaVal? mant
  | (mant, _ :: ex) =>
    match mantissaVal? mant, expVal? ex with
    | some m, some e => some (m * (10 : ℚ) ^ e)
    | _, _ => none

/-- Signed JS decimal literal. -/
def signedVal? (cs : List Char) : Option ℚ :=
  match cs with
  | '+' :: rest => unsignedVal? rest
  | '-' :: rest => (unsignedVal? rest).map (fun q => -q)
  | _ => unsignedVal? cs

/-- JS `Number(s)` for a string, `none` when the result is not finite
(`NaN` or `±Infinity`).  The whole string is trimmed; the empty (or
all-whitespace) string converts to `0`. -/
def jsStrToNum? (s : String) : Option ℚ :=
  let t := jsTrim s
  if t = "" then some 0
  else if t = "Infinity" ∨ t = "+Infinity" ∨ t = "-Infinity" then none
  else signedVal? t.toList

/-- JS `Number(v)`, `none` when the result is not finite. -/
def jsToNum? : Value → Option ℚ
  | Value.null => some 0
  | Value.num q => some q
  | Value.nan => none
  | Value.str s => jsStrToNum? s
  | Value.bool b => some (if b then 1 else 0)

/-- `safeFloat` from `extract.js`: `null`/`undefined` give `0`; otherwise
`Number(val)` when finite, else `0`. -/
def safeFloat (val : Value) : ℚ :=
  match val with
  | Value.null => 0
  | v =>
    match jsToNum? v with
    | some n => n
    | none => 0

/-- The string coercion the extractor applies to every identity cell:
`String(v || '')` — a falsy value collapses to the empty string before
stringification. -/
def strCoerce (v : Value) : String :=
  jsToString (if jsTruthy v then v else Value.str "")

/-- JS `||` on two strings, as used for the aggregation label defaults
(`item.source_fund || 'Unspecified'`, `item.category || 'Other'`). -/
def strOr (s d : String) : String := if s = "" then d else s

/-- A worksheet cell: `v` is the stored value (`Value.null` when `cell.v`
is absent) and `f` the formula string (`""` when absent). -/
structure Cell where
  v : Value := Value.null
  f : String := ""
deriving DecidableEq

/-- A worksheet: cells keyed by 1-indexed `(row, column)`, plus the
1-indexed end row of the `!ref` range (`decode_range(ws[!ref]).e.r + 1`;
`1` when `!ref` is absent, matching the `'A1'` fallback). -/
structure Worksheet where
  cells : List ((Nat × Nat) × Cell) := []
  refEndRow : Nat := 1
deriving DecidableEq

/-- A workbook: its sheets in `SheetNames` order. -/
structure Workbook where
  sheets : List (String × Worksheet) := []
deriving DecidableEq

/-- Look a cell up by 1-indexed row and column. -/
def findCell (ws : Worksheet) (row col : Nat) : Option Cell :=
  (ws.cells.find? (fun p => decide (p.1 = (row, col)))).map Prod.snd

/-- `cellVal` from `extract.js`: `cell ? cell.v : null`. -/
def cellVal (ws : Worksheet) (row col : Nat) : Value :=
  match findCell ws row col with
  | some c => c.v
  | none => Value.null

/-- `cellFormula` from `extract.js`: `cell && cell.f ? cell.f : ''`. -/
def cellFormula (ws : Worksheet) (row col : Nat) : String :=
  match findCell ws row col with
  | some c => c.f
  | none => ""

/-- `maxRow` from `extract.js`: the 1-indexed end row of the worksheet
range. -/
def maxRow (ws : Worksheet) : Nat := ws.refEndRow

/-- `workbook.Sheets[name]`. -/
def getSheet (wb : Workbook) (name : String) : Option Worksheet :=
  (wb.sheets.find? (fun p => decide (p.1 = name))).map Prod.snd

/-- `workbook.SheetNames`. -/
def sheetNames (wb : Workbook) : List String := wb.sheets.map Prod.fst

/-- The totals-row test applied to row `r`:
`String(cellVal(ws, r, 1) || '').trim().toLowerCase() === 'total'`. -/
def isTotalLabel (ws : Worksheet) (r : Nat) : Bool :=
  jsLower (jsTrim (strCoerce (cellVal ws r 1))) == "total"

/-- Totals-row detection from `extract.js`: the first `r` in
`[3, maxRow]` whose column-1 cell matches `isTotalLabel`, defaulting to
`maxRow` when none does. -/
def totalsRowOf (ws : Worksheet) : Nat :=
  ((List.range' 3 (maxRow ws - 2)).find? (fun r => isTotalLabel ws r)).getD (maxRow ws)

/-- One extracted line item (field names as in the emitted JSON). -/
structure LineItem where
  row : Nat
  category : String
  event_type : String
  source_fund : String
  expense_type : String
  vendor : String
  description : String
  itbo_line : String
  sow : String
  itbo : String
  po : String
  budget_fy26 : ℚ
  committed_fy26 : ℚ
  budget_monthly : List ℚ
  budget_quarterly : List ℚ
  budget_fy : ℚ
  forecast_monthly : List ℚ
  forecast_quarterly : List ℚ
  forecast_fy : ℚ
  actual_monthly : List ℚ
  actual_quarterly : List ℚ
  actual_fy : ℚ
  bvf_monthly : List ℚ
  bvf_fy : ℚ
  bva_monthly : List ℚ
  bva_fy : ℚ
  committed_formula : String
deriving DecidableEq

/-- The field mapper: build the line item for a qualifying row, reading
the fixed column contract of `extract.js`. -/
def mkItem (ws : Worksheet) (rowIdx : Nat) : LineItem :=
  { row := rowIdx,
    category := strCoerce (cellVal ws rowIdx 1),
    event_type := strCoerce (cellVal ws rowIdx 2),
    source_fund := strCoerce (cellVal ws rowIdx 3),
    expense_type := strCoerce (cellVal ws rowIdx 4),
    vendor := strCoerce (cellVal ws rowIdx 5),
    description := strCoerce (cellVal ws rowIdx 6),
    itbo_line := strCoerce (cellVal ws rowIdx 7),
    sow := strCoerce (cellVal ws rowIdx 8),
    itbo := strCoerce (cellVal ws rowIdx 9),
    po := strCoerce (cellVal ws rowIdx 10),
    budget_fy26 := safeFloat (cellVal ws rowIdx 11),
    committed_fy26 := safeFloat (cellVal ws rowIdx 12),
    budget_monthly := (List.range 12).map (fun m => safeFloat (cellVal ws rowIdx (13 + m))),
    budget_quarterly := (List.range 4).map (fun q => safeFloat (cellVal ws rowIdx (25 + q))),
    budget_fy := safeFloat (cellVal ws rowIdx 29),
    forecast_monthly := (List.range 12).map (fun m => safeFloat (cellVal ws rowIdx (30 + m))),
    forecast_quarterly := (List.range 4).map (fun q => safeFloat (cellVal ws rowIdx (42 + q))),
    forecast_fy := safeFloat (cellVal ws rowIdx 46),
    actual_monthly := (List.range 12).map (fun m => safeFloat (cellVal ws rowIdx (47 + m))),
    actual_quarterly := (List.range 4).map (fun q => safeFloat (cellVal ws rowIdx (59 + q))),
    actual_fy := safeFloat (cellVal ws rowIdx 63),
    bvf_monthly := (List.range 12).map (fun m => safeFloat (cellVal ws rowIdx (64 + m))),
    bvf_fy := safeFloat (cellVal ws rowIdx 80),
    bva_monthly := (List.range 12).map (fun m => safeFloat (cellVal ws rowIdx (81 + m))),
    bva_fy := safeFloat (cellVal ws rowIdx 97),
    committed_formula := cellFormula ws rowIdx 12 }

/-- The row-classifier plus field-mapper loop: rows `3 ≤ r < totalsRow`,
keeping exactly those whose column-2 (event type) value is truthy
(`if (!eventType) continue`), in row order. -/
def lineItemsOf (ws : Worksheet) : List LineItem :=
  (((List.range' 3 (totalsRowOf ws - 3)).filter
    (fun r => jsTruthy (cellVal ws r 2))).map (mkItem ws))

/-- The `totals` object: the same reads as a line item's monetary fields
except that no BvF/BvA monthly arrays (and no identity fields, no
`budget_fy26`-level formula) are present. -/
structure Totals where
  budget_fy26 : ℚ
  committed_fy26 : ℚ
  budget_monthly : List ℚ
  budget_quarterly : List ℚ
  budget_fy : ℚ
  forecast_monthly : List ℚ
  forecast_quarterly : List ℚ
  forecast_fy : ℚ
  actual_monthly : List ℚ
  actual_quarterly : List ℚ
  actual_fy : ℚ
  bvf_fy : ℚ
  bva_fy : ℚ
deriving DecidableEq

/-- Read the totals object from the detected totals row `tr`. -/
def totalsOf (ws : Worksheet) (tr : Nat) : Totals :=
  { budget_fy26 := safeFloat (cellVal ws tr 11),
    committed_fy26 := safeFloat (cellVal ws tr 12),
    budget_monthly := (List.range 12).map (fun m => safeFloat (cellVal ws tr (13 + m))),
    budget_quarterly := (List.range 4).map (fun q => safeFloat (cellVal ws tr (25 + q))),
    budget_fy := safeFloat (cellVal ws tr 29),
    forecast_monthly := (List.range 12).map (fun m => safeFloat (cellVal ws tr (30 + m))),
    forecast_quarterly := (List.range 4).map (fun q => safeFloat (cellVal ws tr (42 + q))),
    forecast_fy := safeFloat (cellVal ws tr 46),
    actual_monthly := (List.range 12).map (fun m => safeFloat (cellVal ws tr (47 + m))),
    actual_quarterly := (List.range 4).map (fun q => safeFloat (cellVal ws tr (59 + q))),
    actual_fy := safeFloat (cellVal ws tr 63),
    bvf_fy := safeFloat (cellVal ws tr 80),
    bva_fy := safeFloat (cellVal ws tr 97) }

/-- One `actuals_detail` entry. -/
structure DetailEntry where
  category : String
  vendor : String
  description : String
  actual_fy : ℚ
deriving DecidableEq

/-- Projection of a line item to its `actuals_detail` entry. -/
def detailOf (it : LineItem) : DetailEntry :=
  { category := it.category, vendor := it.vendor,
    description := it.description, actual_fy := it.actual_fy }

/-- The aggregate maps (as JS objects: insertion-ordered association
lists) and the actuals-detail list. -/
structure Aggregates where
  by_source_fund : List (String × ℚ)
  by_expense_type : List (String × ℚ)
  by_category : List (String × ℚ)
  actuals_detail : List DetailEntry
deriving DecidableEq

/-- `obj[k] = (obj[k] || 0) + amt` on a JS object: an existing key keeps
its position, a new key is appended.  (`|| 0` only matters for an absent
key: stored values are numbers and `0 || 0 = 0`.) -/
def bumpKey (m : List (String × ℚ)) (k : String) (amt : ℚ) : List (String × ℚ) :=
  match m with
  | [] => [(k, amt)]
  | (k0, v0) :: rest =>
    if k0 = k then (k0, v0 + amt) :: rest
    else (k0, v0) :: bumpKey rest k amt

/-- `obj[k]` on a JS object. -/
def lookupKey (m : List (String × ℚ)) (k : String) : Option ℚ :=
  (m.find? (fun p => p.1 == k)).map Prod.snd

/-- One pass of the aggregation loop body of `extract.js`. -/
def aggStep (acc : Aggregates) (item : LineItem) : Aggregates :=
  { by_source_fund := bumpKey acc.by_source_fund (strOr item.source_fund "Unspecified") item.committed_fy26,
    by_expense_type := bumpKey acc.by_expense_type (strOr item.expense_type "Unspecified") item.committed_fy26,
    by_category := bumpKey acc.by_category (strOr item.category "Other") item.committed_fy26,
    actuals_detail :=
      if 0 < item.actual_fy then acc.actuals_detail ++ [detailOf item]
      else acc.actuals_detail }

/-- The aggregation loop over all line items. -/
def aggregatesOf (items : List LineItem) : Aggregates :=
  items.foldl aggStep { by_source_fund := [], by_expense_type := [], by_category := [], actuals_detail := [] }

/-- The `metadata` object. -/
structure Metadata where
  title : String
  file : String
  sheet : String
  table_name : String
  total_columns : Nat
  total_line_items : Nat
  extracted_at : String
deriving DecidableEq

def MONTHS : List String :=
  ["Jan", "Feb", "Mar", "Apr", "May", "Jun", "Jul", "Aug", "Sep", "Oct", "Nov", "Dec"]

def QUARTERS : List String := ["Q1", "Q2", "Q3", "Q4"]

/-- The extraction result (the static `audit_findings` and
`recommendations` constants are opaque annotations attached verbatim and
carry no workbook-derived content, so they are not modelled). -/
structure BudgetData where
  metadata : Metadata
  months : List String
  quarters : List String
  line_items : List LineItem
  totals : Totals
  by_source_fund : List (String × ℚ)
  by_expense_type : List (String × ℚ)
  by_category : List (String × ℚ)
  actuals_detail : List DetailEntry
deriving DecidableEq

/-- The successful-extraction payload for worksheet `ws`; `today` is the
value of `new Date().toISOString().slice(0, 10)` at the call. -/
def mkData (ws : Worksheet) (today : String) : BudgetData :=
  { metadata :=
      { title := "CDO 2026 Budget",
        file := "Uploaded via dashboard",
        sheet := "2026 Budget",
        table_name := "CDOBudget",
        total_columns := 97,
        total_line_items := (lineItemsOf ws).length,
        extracted_at := today },
    months := MONTHS,
    quarters := QUARTERS,
    line_items := lineItemsOf ws,
    totals := totalsOf ws (totalsRowOf ws),
    by_source_fund := (aggregatesOf (lineItemsOf ws)).by_source_fund,
    by_expense_type := (aggregatesOf (lineItemsOf ws)).by_expense_type,
    by_category := (aggregatesOf (lineItemsOf ws)).by_category,
    actuals_detail := (aggregatesOf (lineItemsOf ws)).actuals_detail }

/-- `extractBudget` from `extract.js`: fail when the target sheet is
absent (with the exact message template of the source), otherwise produce
the full result. -/
def extractBudget (workbook : Workbook) (today : String) : Except String BudgetData :=
  match getSheet workbook "2026 Budget" with
  | none =>
    Except.error ("Sheet \"2026 Budget\" not found. Available sheets: " ++
      String.intercalate ", " (sheetNames workbook))
  | some ws => Except.ok (mkData ws today)

/-- The last 1-indexed row carrying a stored cell (`1` for an empty
sheet, matching the `'A1'` default range). -/
def lastPopulatedRow (ws : Worksheet) : Nat :=
  ws.cells.foldl (fun a p => max a p.1.1) 1

/-- A worksheet is well formed when its `!ref` range ends exactly at its
last populated row (SheetJS maintains `!ref` to cover the stored cells). -/
def wellFormed (ws : Worksheet) : Prop :=
  ws.refEndRow = lastPopulatedRow ws

/-! ### Helper lemmas -/

theorem natDecimalCore_succ_ne_nil (fuel n : Nat) : natDecimalCore (fuel + 1) n ≠ [] := by
  unfold natDecimalCore
  split
  · simp
  · simp

theorem natDecimal_data_ne_nil (n : Nat) : (natDecimal n).data ≠ [] :=
  natDecimalCore_succ_ne_nil n n

theorem jsNumToString_ne_empty (q : ℚ) : jsNumToString q ≠ "" := by
  intro h
  have h2 : (jsNumToString q).data = ("" : String).data := by rw [h]
  rw [jsNumToString] at h2
  simp only [String.data_append] at h2
  rcases List.append_eq_nil.mp h2 with ⟨h3, -⟩
  rcases List.append_eq_nil.mp h3 with ⟨-, h4⟩
  exact natDecimal_data_ne_nil _ h4

theorem strCoerce_eq_empty_of_falsy {v : Value} (h : jsTruthy v = false) :
    strCoerce v = "" := by
  rw [strCoerce, h]
  rfl

theorem strCoerce_ne_empty_iff (v : Value) : strCoerce v ≠ "" ↔ jsTruthy v = true := by
  constructor
  · intro h
    by_contra hb
    exact h (strCoerce_eq_empty_of_falsy (Bool.not_eq_true _ ▸ hb))
  · intro h
    rw [strCoerce, h, if_pos rfl]
    cases v with
    | null => simp [jsTruthy] at h
    | num q => exact jsNumToString_ne_empty q
    | nan => simp [jsTruthy] at h
    | str s => simpa [jsTruthy] using h
    | bool b =>
      cases b with
      | false => simp [jsTruthy] at h
      | true => simp [jsToString]

theorem find?_range'_eq_some {p : Nat → Bool} {s n r : Nat}
    (h : (List.range' s n).find? p = some r) :
    p r = true ∧ s ≤ r ∧ r < s + n ∧ ∀ j, s ≤ j → j < r → p j = false := by
  induction n generalizing s with
  | zero => simp [List.range'] at h
  | succ n ih =>
    rw [List.range'_succ] at h
    by_cases hp : p s
    · rw [List.find?_cons_of_pos _ hp] at h
      injection h with h'
      subst h'
      exact ⟨hp, Nat.le_refl _, by omega, fun j h1 h2 => absurd h2 (by omega)⟩
    · rw [List.find?_cons_of_neg _ hp] at h
      obtain ⟨h1, h2, h3, h4⟩ := ih h
      refine ⟨h1, by omega, by omega, fun j hj1 hj2 => ?_⟩
      rcases Nat.eq_or_lt_of_le hj1 with heq | hlt
      · subst heq
        exact Bool.not_eq_true _ ▸ hp
      · exact h4 j hlt hj2

theorem find?_range'_eq_none {p : Nat → Bool} {s n : Nat}
    (h : (List.range' s n).find? p = none) :
    ∀ j, s ≤ j → j < s + n → p j = false := by
  intro j hj1 hj2
  have hm : j ∈ List.range' s n := by
    rw [List.mem_range'_1]
    exact ⟨hj1, hj2⟩
  have := List.find?_eq_none.mp h j hm
  exact Bool.not_eq_true _ ▸ this

theorem le_foldl_max (l : List ((Nat × Nat) × Cell)) (a : Nat) :
    a ≤ l.foldl (fun b q => max b q.1.1) a := by
  induction l generalizing a with
  | nil => exact Nat.le_refl a
  | cons x xs ih => exact Nat.le_trans (Nat.le_max_left a x.1.1) (ih (max a x.1.1))

theorem mem_le_foldl_max (l : List ((Nat × Nat) × Cell)) (a : Nat)
    (p : (Nat × Nat) × Cell) (hp : p ∈ l) :
    p.1.1 ≤ l.foldl (fun b q => max b q.1.1) a := by
  induction l generalizing a with
  | nil => cases hp
  | cons x xs ih =>
    rcases List.mem_cons.mp hp with heq | hmem
    · subst heq
      exact Nat.le_trans (Nat.le_max_right a p.1.1) (le_foldl_max xs _)
    · exact ih (max a x.1.1) hmem

theorem labeled_row_le_lastPopulated (ws : Worksheet) (r : Nat)
    (h : isTotalLabel ws r = true) : r ≤ lastPopulatedRow ws := by
  rcases hc : findCell ws r 1 with - | c
  · exfalso
    rw [isTotalLabel] at h
    rw [show cellVal ws r 1 = Value.null by rw [cellVal, hc]] at h
    simp [strCoerce, jsTruthy, jsToString, jsTrim, jsLower] at h
  · rw [findCell, Option.map_eq_some'] at hc
    obtain ⟨pr, hfind, -⟩ := hc
    have hmem := List.mem_of_find?_eq_some hfind
    have hkey := List.find?_some hfind
    have hkey2 : pr.1 = (r, 1) := of_decide_eq_true hkey
    have hle := mem_le_foldl_max ws.cells 1 pr hmem
    rw [hkey2] at hle
    simpa [lastPopulatedRow] using hle

theorem extract_ok_inv (wb : Workbook) (t : String) (d : BudgetData)
    (hok : extractBudget wb t = Except.ok d) :
    ∃ ws, getSheet wb "2026 Budget" = some ws ∧ d = mkData ws t := by
  rw [extractBudget] at hok
  rcases hgs : getSheet wb "2026 Budget" with - | ws
  · rw [hgs] at hok
    exact absurd hok (by simp)
  · rw [hgs] at hok
    injection hok with h'
    exact ⟨ws, rfl, h'.symm⟩

theorem mem_row_iff (ws : Worksheet) (r : Nat) :
    (∃ it ∈ lineItemsOf ws, it.row = r) ↔
      (3 ≤ r ∧ r < totalsRowOf ws ∧ jsTruthy (cellVal ws r 2) = true) := by
  rw [lineItemsOf]
  constructor
  · rintro ⟨it, hmem, hrow⟩
    rw [List.mem_map] at hmem
    obtain ⟨r', hr', rfl⟩ := hmem
    rw [List.mem_filter] at hr'
    obtain ⟨hrange, hp⟩ := hr'
    rw [List.mem_range'_1] at hrange
    have hrr : (mkItem ws r').row = r' := rfl
    rw [hrr] at hrow
    subst hrow
    exact ⟨hrange.1, by omega, hp⟩
  · rintro ⟨h3, hlt, hp⟩
    refine ⟨mkItem ws r, ?_, rfl⟩
    rw [List.mem_map]
    refine ⟨r, ?_, rfl⟩
    rw [List.mem_filter, List.mem_range'_1]
    exact ⟨⟨h3, by omega⟩, hp⟩

theorem bumpKey_values_sum (m : List (String × ℚ)) (k : String) (amt : ℚ) :
    ((bumpKey m k amt).map Prod.snd).sum = (m.map Prod.snd).sum + amt := by
  induction m with
  | nil => simp [bumpKey]
  | cons p rest ih =>
    obtain ⟨k0, v0⟩ := p
    by_cases hk : k0 = k
    · simp only [bumpKey, if_pos hk, List.map_cons, List.sum_cons]
      ring
    · simp only [bumpKey, if_neg hk, List.map_cons, List.sum_cons, ih]
      ring

theorem lookupKey_cons (k0 : String) (v0 : ℚ) (rest : List (String × ℚ)) (k : String) :
    lookupKey ((k0, v0) :: rest) k = if k0 = k then some v0 else lookupKey rest k := by
  by_cases hk : k0 = k
  · rw [lookupKey, List.find?_cons_of_pos _ (by simpa using hk), if_pos hk]
    rfl
  · rw [lookupKey, List.find?_cons_of_neg _ (by simpa using hk), if_neg hk]
    rfl

theorem bumpKey_cons_hit (k0 : String) (v0 : ℚ) (rest : List (String × ℚ))
    (k : String) (amt : ℚ) (hk : k0 = k) :
    bumpKey ((k0, v0) :: rest) k amt = (k0, v0 + amt) :: rest := by
  simp [bumpKey, hk]

theorem bumpKey_cons_miss (k0 : String) (v0 : ℚ) (rest : List (String × ℚ))
    (k : String) (amt : ℚ) (hk : ¬ k0 = k) :
    bumpKey ((k0, v0) :: rest) k amt = (k0, v0) :: bumpKey rest k amt := by
  simp [bumpKey, hk]

theorem bumpKey_lookup_self (m : List (String × ℚ)) (k : String) (amt : ℚ) :
    lookupKey (bumpKey m k amt) k = some ((lookupKey m k).getD 0 + amt) := by
  induction m with
  | nil => simp [bumpKey, lookupKey, lookupKey_cons]
  | cons p rest ih =>
    obtain ⟨k0, v0⟩ := p
    by_cases hk : k0 = k
    · rw [bumpKey_cons_hit _ _ _ _ _ hk, lookupKey_cons, lookupKey_cons, if_pos hk, if_pos hk]
      rfl
    · rw [bumpKey_cons_miss _ _ _ _ _ hk, lookupKey_cons, lookupKey_cons, if_neg hk, if_neg hk, ih]

theorem bumpKey_lookup_ne (m : List (String × ℚ)) (k k' : String) (amt : ℚ)
    (h : k' ≠ k) :
    lookupKey (bumpKey m k amt) k' = lookupKey m k' := by
  induction m with
  | nil =>
    rw [bumpKey, lookupKey_cons, if_neg (fun hh => h hh.symm)]
  | cons p rest ih =>
    obtain ⟨k0, v0⟩ := p
    by_cases hk : k0 = k
    · rw [bumpKey_cons_hit _ _ _ _ _ hk, lookupKey_cons, lookupKey_cons,
        if_neg (fun hh => h (hk ▸ hh).symm), if_neg (fun hh => h (hk ▸ hh).symm)]
    · rw [bumpKey_cons_miss _ _ _ _ _ hk, lookupKey_cons, lookupKey_cons, ih]

/-- The category label under which a line item accumulates:
`item.category || 'Other'`. -/
def catKey (it : LineItem) : String := strOr it.category "Other"

theorem foldl_aggStep_bycat_sum (items : List LineItem) (acc : Aggregates) :
    (((items.foldl aggStep acc).by_category).map Prod.snd).sum =
      ((acc.by_category).map Prod.snd).sum + (items.map LineItem.committed_fy26).sum := by
  induction items generalizing acc with
  | nil => simp
  | cons it rest ih =>
    rw [List.foldl_cons, ih]
    have hstep : (aggStep acc it).by_category =
        bumpKey acc.by_category (catKey it) it.committed_fy26 := rfl
    rw [hstep, bumpKey_values_sum]
    simp only [List.map_cons, List.sum_cons]
    ring

theorem foldl_aggStep_detail (items : List LineItem) (acc : Aggregates) :
    (items.foldl aggStep acc).actuals_detail =
      acc.actuals_detail ++
        (items.filter (fun it => decide (0 < it.actual_fy))).map detailOf := by
  induction items generalizing acc with
  | nil => simp
  | cons it rest ih =>
    rw [List.foldl_cons, ih]
    have hstep : (aggStep acc it).actuals_detail =
        if 0 < it.actual_fy then acc.actuals_detail ++ [detailOf it]
        else acc.actuals_detail := rfl
    rw [hstep]
    by_cases h : 0 < it.actual_fy
    · rw [if_pos h, List.filter_cons, if_pos (by simpa using h)]
      simp
    · rw [if_neg h, List.filter_cons, if_neg (by simpa using h)]

theorem foldl_aggStep_bycat_getD (items : List LineItem) (acc : Aggregates) (k : String) :
    (lookupKey ((items.foldl aggStep acc).by_category) k).getD 0 =
      (lookupKey acc.by_category k).getD 0 +
        ((items.filter (fun it => catKey it == k)).map LineItem.committed_fy26).sum := by
  induction items generalizing acc with
  | nil => simp
  | cons it rest ih =>
    rw [List.foldl_cons, ih]
    have hstep : (aggStep acc it).by_category =
        bumpKey acc.by_category (catKey it) it.committed_fy26 := rfl
    rw [hstep]
    by_cases h : catKey it = k
    · subst h
      rw [bumpKey_lookup_self, List.filter_cons, if_pos (by simp)]
      simp only [Option.getD_some, List.map_cons, List.sum_cons]
      ring
    · rw [bumpKey_lookup_ne _ _ _ _ (fun hh => h hh.symm), List.filter_cons,
        if_neg (by simpa using h)]

theorem foldl_aggStep_bycat_isSome (items : List LineItem) (acc : Aggregates) (k : String) :
    (lookupKey ((items.foldl aggStep acc).by_category) k).isSome =
      ((lookupKey acc.by_category k).isSome || items.any (fun it => catKey it == k)) := by
  induction items generalizing acc with
  | nil => simp
  | cons it rest ih =>
    rw [List.foldl_cons, ih]
    have hstep : (aggStep acc it).by_category =
        bumpKey acc.by_category (catKey it) it.committed_fy26 := rfl
    rw [hstep]
    by_cases h : catKey it = k
    · subst h
      rw [bumpKey_lookup_self]
      simp
    · rw [bumpKey_lookup_ne _ _ _ _ (fun hh => h hh.symm)]
      simp only [List.any_cons]
      have hb : (catKey it == k) = false := by simpa using h
      rw [hb, Bool.false_or]

/-! ### Concrete fixtures used by the witnesses -/

/-- A small sheet: one line item on row 3 (category `Travel`, event type
`SOW`, committed 125000, actual FY 5) and a `Total` row on row 4. -/
def wsA : Worksheet :=
  { cells := [((3, 1), { v := Value.str "Travel" }), ((3, 2), { v := Value.str "SOW" }),
      ((3, 12), { v := Value.num 125000 }), ((3, 63), { v := Value.num 5 }),
      ((4, 1), { v := Value.str "Total" }), ((4, 12), { v := Value.num 125000 })],
    refEndRow := 4 }

def wbA : Workbook := { sheets := [("2026 Budget", wsA)] }

/-- A workbook without the target sheet. -/
def wbB : Workbook := { sheets := [("Sheet1", { refEndRow := 1 }), ("2025 Budget", { refEndRow := 1 })] }

/-- Row 3 is the totals row; column 64 (BvF January) holds 5. -/
def ws71 : Worksheet :=
  { cells := [((3, 1), { v := Value.str "Total" }), ((3, 64), { v := Value.num 5 })],
    refEndRow := 3 }

/-- Same as `ws71` except column 64 of the totals row holds 7. -/
def ws72 : Worksheet :=
  { cells := [((3, 1), { v := Value.str "Total" }), ((3, 64), { v := Value.num 7 })],
    refEndRow := 3 }

def wb71 : Workbook := { sheets := [("2026 Budget", ws71)] }

def wb72 : Workbook := { sheets := [("2026 Budget", ws72)] }

/-- A sheet whose row-3 line item has a blank category cell, committed
7 and actual FY 5. -/
def wsC : Worksheet :=
  { cells := [((3, 2), { v := Value.str "SOW" }), ((3, 5), { v := Value.str "Acme" }),
      ((3, 6), { v := Value.str "widgets" }), ((3, 12), { v := Value.num 7 }),
      ((3, 63), { v := Value.num 5 }), ((4, 1), { v := Value.str "Total" })],
    refEndRow := 4 }

def wbC : Workbook := { sheets := [("2026 Budget", wsC)] }

/-! ### Claim theorems -/

/-- C1: the numeric coercion `safeFloat` is total — every cell value maps
to a (finite) rational — it passes finite numbers through, and it returns
exactly `0` for `null`/`undefined`, for the empty string, and for every
value whose JS numeric parse is not a finite number. -/
theorem safeFloat_coercion_totality :
    (∀ v : Value, ∃ q : ℚ, safeFloat v = q) ∧
    safeFloat Value.null = 0 ∧
    safeFloat (Value.str "") = 0 ∧
    (∀ q : ℚ, safeFloat (Value.num q) = q) ∧
    (∀ v : Value, jsToNum? v = none → safeFloat v = 0) := by
  refine ⟨fun v => ⟨safeFloat v, rfl⟩, rfl, rfl, fun q => rfl, fun v hv => ?_⟩
  cases v with
  | null => rfl
  | num q => simp [jsToNum?] at hv
  | nan => rfl
  | str s => simp [safeFloat, hv]
  | bool b => simp [jsToNum?] at hv

/-- Witness for C1 at concrete non-finite inputs. -/
theorem safeFloat_coercion_totality_witness :
    jsToNum? Value.nan = none ∧ safeFloat Value.nan = 0 ∧
    jsToNum? (Value.str "n/a") = none ∧ safeFloat (Value.str "n/a") = 0 :=
  ⟨rfl, safeFloat_coercion_totality.2.2.2.2 Value.nan rfl, by decide,
    safeFloat_coercion_totality.2.2.2.2 (Value.str "n/a") (by decide)⟩

/-- C2: for every row in `[3, totalsRow)` the extraction carries a line
item with that row index iff the row's column-2 (event type) cell is
non-empty after the extractor's string coercion (`String(v || '')`); rows
failing the test are dropped while the extraction still succeeds (the
hypothesis `hok`). -/
theorem lineitem_iff_eventtype (wb : Workbook) (today : String) (d : BudgetData)
    (ws : Worksheet) (hws : getSheet wb "2026 Budget" = some ws)
    (hok : extractBudget wb today = Except.ok d)
    (r : Nat) (h3 : 3 ≤ r) (hlt : r < totalsRowOf ws) :
    (∃ it ∈ d.line_items, it.row = r) ↔ strCoerce (cellVal ws r 2) ≠ "" := by
  obtain ⟨ws', hws', rfl⟩ := extract_ok_inv wb today d hok
  rw [hws] at hws'
  injection hws' with h'
  subst h'
  have hli : (mkData ws today).line_items = lineItemsOf ws := rfl
  rw [hli, mem_row_iff, strCoerce_ne_empty_iff]
  constructor
  · rintro ⟨-, -, h⟩
    exact h
  · intro h
    exact ⟨h3, hlt, h⟩

/-- Witness for C2: in `wsA`, row 3 carries the event type `"SOW"` and
the totals row is 4, so a line item exists for row 3. -/
theorem lineitem_iff_eventtype_witness :
    (∃ it ∈ (mkData wsA "2026-02-03").line_items, it.row = 3) ↔
      strCoerce (cellVal wsA 3 2) ≠ "" :=
  lineitem_iff_eventtype wbA "2026-02-03" (mkData wsA "2026-02-03") wsA rfl rfl 3
    (by decide) (by decide)

/-- C3: on a well-formed worksheet the detected totals row is the first
row `N ≥ 3` whose column-1 cell, trimmed and lowercased, equals exactly
`"total"`; when no such row exists it equals the worksheet's last
populated row. -/
theorem totalsrow_first_match_or_last (ws : Worksheet) (hwf : wellFormed ws) :
    ((∃ N, 3 ≤ N ∧ isTotalLabel ws N = true) →
      3 ≤ totalsRowOf ws ∧ isTotalLabel ws (totalsRowOf ws) = true ∧
        ∀ N, 3 ≤ N → isTotalLabel ws N = true → totalsRowOf ws ≤ N) ∧
    ((∀ N, 3 ≤ N → isTotalLabel ws N = false) →
      totalsRowOf ws = lastPopulatedRow ws) := by
  have hM : maxRow ws = lastPopulatedRow ws := hwf
  rcases hf : (List.range' 3 (maxRow ws - 2)).find? (fun r => isTotalLabel ws r) with - | r
  · have htot : totalsRowOf ws = maxRow ws := by rw [totalsRowOf, hf]; rfl
    constructor
    · rintro ⟨N, hN3, hNl⟩
      have hNle : N ≤ lastPopulatedRow ws := labeled_row_le_lastPopulated ws N hNl
      have hfalse : isTotalLabel ws N = false :=
        find?_range'_eq_none hf N hN3 (by omega)
      rw [hNl] at hfalse
      cases hfalse
    · intro _
      rw [htot]
      exact hM
  · have htot : totalsRowOf ws = r := by rw [totalsRowOf, hf]; rfl
    obtain ⟨hpr, hr3, hrlt, hmin⟩ := find?_range'_eq_some hf
    constructor
    · intro _
      refine ⟨htot ▸ hr3, htot ▸ hpr, fun N hN3 hNl => ?_⟩
      rw [htot]
      by_contra hc
      push_neg at hc
      have hfalse := hmin N hN3 hc
      rw [hNl] at hfalse
      cases hfalse
    · intro h
      have hfalse := h r hr3
      rw [hpr] at hfalse
      cases hfalse

/-- Witness for C3 at the concrete sheet `wsA` (row 4 column 1 holds
`"Total"`). -/
theorem totalsrow_first_match_or_last_witness :
    ((∃ N, 3 ≤ N ∧ isTotalLabel wsA N = true) →
      3 ≤ totalsRowOf wsA ∧ isTotalLabel wsA (totalsRowOf wsA) = true ∧
        ∀ N, 3 ≤ N → isTotalLabel wsA N = true → totalsRowOf wsA ≤ N) ∧
    ((∀ N, 3 ≤ N → isTotalLabel wsA N = false) →
      totalsRowOf wsA = lastPopulatedRow wsA) :=
  totalsrow_first_match_or_last wsA rfl

/-- C4: extraction fails exactly when the workbook lacks the sheet
`"2026 Budget"`, and then with the error message naming that sheet and
listing the available sheet names; with the sheet present it returns the
full result (never an error), whatever the cells hold. -/
theorem extract_fails_iff_sheet_missing (wb : Workbook) (today : String) :
    (getSheet wb "2026 Budget" = none →
      extractBudget wb today = Except.error
        ("Sheet \"2026 Budget\" not found. Available sheets: " ++
          String.intercalate ", " (sheetNames wb))) ∧
    (∀ ws, getSheet wb "2026 Budget" = some ws →
      extractBudget wb today = Except.ok (mkData ws today)) := by
  constructor
  · intro h
    unfold extractBudget
    rw [h]
  · intro ws h
    unfold extractBudget
    rw [h]

/-- Witness for C4: a workbook without the target sheet errors, one with
it succeeds. -/
theorem extract_fails_iff_sheet_missing_witness :
    extractBudget wbB "2026-02-03" = Except.error
      ("Sheet \"2026 Budget\" not found. Available sheets: " ++
        String.intercalate ", " (sheetNames wbB)) ∧
    extractBudget wbA "2026-02-03" = Except.ok (mkData wsA "2026-02-03") :=
  ⟨(extract_fails_iff_sheet_missing wbB "2026-02-03").1 rfl,
    (extract_fails_iff_sheet_missing wbA "2026-02-03").2 wsA rfl⟩

/-- C5: the values of `by_category` sum (exactly, in `ℚ`) to the sum of
`committed_fy26` over all line items. -/
theorem bycategory_sum_matches (wb : Workbook) (today : String) (d : BudgetData)
    (hok : extractBudget wb today = Except.ok d) :
    (d.by_category.map Prod.snd).sum = (d.line_items.map LineItem.committed_fy26).sum := by
  obtain ⟨ws, -, rfl⟩ := extract_ok_inv wb today d hok
  have h1 : (mkData ws today).by_category = (aggregatesOf (lineItemsOf ws)).by_category := rfl
  have h2 : (mkData ws today).line_items = lineItemsOf ws := rfl
  rw [h1, h2, aggregatesOf, foldl_aggStep_bycat_sum]
  simp

/-- Witness for C5 at the concrete workbook `wbA`. -/
theorem bycategory_sum_matches_witness :
    ((mkData wsA "2026-02-03").by_category.map Prod.snd).sum =
      ((mkData wsA "2026-02-03").line_items.map LineItem.committed_fy26).sum :=
  bycategory_sum_matches wbA "2026-02-03" (mkData wsA "2026-02-03") rfl

/-- C6: two extractions from the identical workbook agree on every output
field except the time-dependent `metadata.extracted_at` label. -/
theorem extract_deterministic (wb : Workbook) (t1 t2 : String) (d1 d2 : BudgetData)
    (h1 : extractBudget wb t1 = Except.ok d1)
    (h2 : extractBudget wb t2 = Except.ok d2) :
    d1.line_items = d2.line_items ∧ d1.totals = d2.totals ∧
    d1.by_source_fund = d2.by_source_fund ∧ d1.by_expense_type = d2.by_expense_type ∧
    d1.by_category = d2.by_category ∧ d1.actuals_detail = d2.actuals_detail ∧
    d1.months = d2.months ∧ d1.quarters = d2.quarters ∧
    d1.metadata.title = d2.metadata.title ∧ d1.metadata.file = d2.metadata.file ∧
    d1.metadata.sheet = d2.metadata.sheet ∧
    d1.metadata.table_name = d2.metadata.table_name ∧
    d1.metadata.total_columns = d2.metadata.total_columns ∧
    d1.metadata.total_line_items = d2.metadata.total_line_items := by
  obtain ⟨ws1, hws1, rfl⟩ := extract_ok_inv wb t1 d1 h1
  obtain ⟨ws2, hws2, rfl⟩ := extract_ok_inv wb t2 d2 h2
  rw [hws1] at hws2
  injection hws2 with h'
  subst h'
  exact ⟨rfl, rfl, rfl, rfl, rfl, rfl, rfl, rfl, rfl, rfl, rfl, rfl, rfl, rfl⟩

/-- Witness for C6: two extractions of `wbA` on different dates. -/
theorem extract_deterministic_witness :
    (mkData wsA "2026-01-01").line_items = (mkData wsA "2026-02-03").line_items ∧
    (mkData wsA "2026-01-01").totals = (mkData wsA "2026-02-03").totals ∧
    (mkData wsA "2026-01-01").by_source_fund = (mkData wsA "2026-02-03").by_source_fund ∧
    (mkData wsA "2026-01-01").by_expense_type = (mkData wsA "2026-02-03").by_expense_type ∧
    (mkData wsA "2026-01-01").by_category = (mkData wsA "2026-02-03").by_category ∧
    (mkData wsA "2026-01-01").actuals_detail = (mkData wsA "2026-02-03").actuals_detail ∧
    (mkData wsA "2026-01-01").months = (mkData wsA "2026-02-03").months ∧
    (mkData wsA "2026-01-01").quarters = (mkData wsA "2026-02-03").quarters ∧
    (mkData wsA "2026-01-01").metadata.title = (mkData wsA "2026-02-03").metadata.title ∧
    (mkData wsA "2026-01-01").metadata.file = (mkData wsA "2026-02-03").metadata.file ∧
    (mkData wsA "2026-01-01").metadata.sheet = (mkData wsA "2026-02-03").metadata.sheet ∧
    (mkData wsA "2026-01-01").metadata.table_name = (mkData wsA "2026-02-03").metadata.table_name ∧
    (mkData wsA "2026-01-01").metadata.total_columns = (mkData wsA "2026-02-03").metadata.total_columns ∧
    (mkData wsA "2026-01-01").metadata.total_line_items = (mkData wsA "2026-02-03").metadata.total_line_items :=
  extract_deterministic wbA "2026-01-01" "2026-02-03"
    (mkData wsA "2026-01-01") (mkData wsA "2026-02-03") rfl rfl

/-- C7 counterexample: the totals object does not contain the BvF monthly
series.  `ws71` and `ws72` differ exactly in column 64 (BvF January) of
the detected totals row — a difference a line item's `bvf_monthly` would
carry — yet the two extractions are identical, so no output field of the
totals reads those cells. -/
theorem totals_shape_counterexample :
    cellVal ws71 3 64 ≠ cellVal ws72 3 64 ∧
    (mkItem ws71 3).bvf_monthly ≠ (mkItem ws72 3).bvf_monthly ∧
    totalsRowOf ws71 = 3 ∧ totalsRowOf ws72 = 3 ∧
    extractBudget wb71 "2026-02-03" = extractBudget wb72 "2026-02-03" := by
  refine ⟨by decide, by decide, by decide, by decide, ?_⟩
  have h : mkData ws71 "2026-02-03" = mkData ws72 "2026-02-03" := by decide
  show Except.ok (mkData ws71 "2026-02-03") = Except.ok (mkData ws72 "2026-02-03")
  rw [h]

/-- C7 (amended): the totals object carries the monetary fields of a
line item except the BvF/BvA monthly arrays (BvF and BvA appear only as
FY scalars), each read directly from the detected totals row rather than
computed by summation. -/
theorem totals_read_from_totals_row (wb : Workbook) (today : String) (d : BudgetData)
    (ws : Worksheet) (hws : getSheet wb "2026 Budget" = some ws)
    (hok : extractBudget wb today = Except.ok d) :
    d.totals = totalsOf ws (totalsRowOf ws) ∧
    d.totals.budget_fy26 = safeFloat (cellVal ws (totalsRowOf ws) 11) ∧
    d.totals.committed_fy26 = safeFloat (cellVal ws (totalsRowOf ws) 12) ∧
    d.totals.budget_monthly =
      (List.range 12).map (fun m => safeFloat (cellVal ws (totalsRowOf ws) (13 + m))) ∧
    d.totals.budget_quarterly =
      (List.range 4).map (fun q => safeFloat (cellVal ws (totalsRowOf ws) (25 + q))) ∧
    d.totals.budget_fy = safeFloat (cellVal ws (totalsRowOf ws) 29) ∧
    d.totals.forecast_monthly =
      (List.range 12).map (fun m => safeFloat (cellVal ws (totalsRowOf ws) (30 + m))) ∧
    d.totals.forecast_quarterly =
      (List.range 4).map (fun q => safeFloat (cellVal ws (totalsRowOf ws) (42 + q))) ∧
    d.totals.forecast_fy = safeFloat (cellVal ws (totalsRowOf ws) 46) ∧
    d.totals.actual_monthly =
      (List.range 12).map (fun m => safeFloat (cellVal ws (totalsRowOf ws) (47 + m))) ∧
    d.totals.actual_quarterly =
      (List.range 4).map (fun q => safeFloat (cellVal ws (totalsRowOf ws) (59 + q))) ∧
    d.totals.actual_fy = safeFloat (cellVal ws (totalsRowOf ws) 63) ∧
    d.totals.bvf_fy = safeFloat (cellVal ws (totalsRowOf ws) 80) ∧
    d.totals.bva_fy = safeFloat (cellVal ws (totalsRowOf ws) 97) := by
  obtain ⟨ws', hws', rfl⟩ := extract_ok_inv wb today d hok
  rw [hws] at hws'
  injection hws' with h'
  subst h'
  exact ⟨rfl, rfl, rfl, rfl, rfl, rfl, rfl, rfl, rfl, rfl, rfl, rfl, rfl, rfl⟩

/-- Witness for the amended C7 at the concrete workbook `wbA`. -/
theorem totals_read_from_totals_row_witness :
    (mkData wsA "2026-02-03").totals = totalsOf wsA (totalsRowOf wsA) ∧
    (mkData wsA "2026-02-03").totals.budget_fy26 = safeFloat (cellVal wsA (totalsRowOf wsA) 11) ∧
    (mkData wsA "2026-02-03").totals.committed_fy26 = safeFloat (cellVal wsA (totalsRowOf wsA) 12) ∧
    (mkData wsA "2026-02-03").totals.budget_monthly =
      (List.range 12).map (fun m => safeFloat (cellVal wsA (totalsRowOf wsA) (13 + m))) ∧
    (mkData wsA "2026-02-03").totals.budget_quarterly =
      (List.range 4).map (fun q => safeFloat (cellVal wsA (totalsRowOf wsA) (25 + q))) ∧
    (mkData wsA "2026-02-03").totals.budget_fy = safeFloat (cellVal wsA (totalsRowOf wsA) 29) ∧
    (mkData wsA "2026-02-03").totals.forecast_monthly =
      (List.range 12).map (fun m => safeFloat (cellVal wsA (totalsRowOf wsA) (30 + m))) ∧
    (mkData wsA "2026-02-03").totals.forecast_quarterly =
      (List.range 4).map (fun q => safeFloat (cellVal wsA (totalsRowOf wsA) (42 + q))) ∧
    (mkData wsA "2026-02-03").totals.forecast_fy = safeFloat (cellVal wsA (totalsRowOf wsA) 46) ∧
    (mkData wsA "2026-02-03").totals.actual_monthly =
      (List.range 12).map (fun m => safeFloat (cellVal wsA (totalsRowOf wsA) (47 + m))) ∧
    (mkData wsA "2026-02-03").totals.actual_quarterly =
      (List.range 4).map (fun q => safeFloat (cellVal wsA (totalsRowOf wsA) (59 + q))) ∧
    (mkData wsA "2026-02-03").totals.actual_fy = safeFloat (cellVal wsA (totalsRowOf wsA) 63) ∧
    (mkData wsA "2026-02-03").totals.bvf_fy = safeFloat (cellVal wsA (totalsRowOf wsA) 80) ∧
    (mkData wsA "2026-02-03").totals.bva_fy = safeFloat (cellVal wsA (totalsRowOf wsA) 97) :=
  totals_read_from_totals_row wbA "2026-02-03" (mkData wsA "2026-02-03") wsA rfl rfl

/-- C8: `actuals_detail` is exactly the line items with `actual_fy > 0`,
projected by `detailOf` to the four display fields, in source order. -/
theorem actuals_detail_filtered_ordered (wb : Workbook) (today : String) (d : BudgetData)
    (hok : extractBudget wb today = Except.ok d) :
    d.actuals_detail =
      (d.line_items.filter (fun it => decide (0 < it.actual_fy))).map detailOf := by
  obtain ⟨ws, -, rfl⟩ := extract_ok_inv wb today d hok
  have h1 : (mkData ws today).actuals_detail =
      (aggregatesOf (lineItemsOf ws)).actuals_detail := rfl
  have h2 : (mkData ws today).line_items = lineItemsOf ws := rfl
  rw [h1, h2, aggregatesOf, foldl_aggStep_detail]
  simp

/-- Witness for C8 at the concrete workbook `wbA`. -/
theorem actuals_detail_filtered_ordered_witness :
    (mkData wsA "2026-02-03").actuals_detail =
      ((mkData wsA "2026-02-03").line_items.filter
        (fun it => decide (0 < it.actual_fy))).map detailOf :=
  actuals_detail_filtered_ordered wbA "2026-02-03" (mkData wsA "2026-02-03") rfl

/-- C9: every constructed line item has monthly arrays of length exactly
12 and quarterly arrays of length exactly 4, whatever the source cells
hold. -/
theorem lineitem_array_lengths (wb : Workbook) (today : String) (d : BudgetData)
    (hok : extractBudget wb today = Except.ok d)
    (it : LineItem) (hit : it ∈ d.line_items) :
    it.budget_monthly.length = 12 ∧ it.forecast_monthly.length = 12 ∧
    it.actual_monthly.length = 12 ∧ it.bvf_monthly.length = 12 ∧
    it.bva_monthly.length = 12 ∧ it.budget_quarterly.length = 4 ∧
    it.forecast_quarterly.length = 4 ∧ it.actual_quarterly.length = 4 := by
  obtain ⟨ws, -, rfl⟩ := extract_ok_inv wb today d hok
  have hmem : it ∈ lineItemsOf ws := hit
  rw [lineItemsOf, List.mem_map] at hmem
  obtain ⟨r, -, rfl⟩ := hmem
  refine ⟨?_, ?_, ?_, ?_, ?_, ?_, ?_, ?_⟩ <;> simp [mkItem]

/-- Witness for C9 at the row-3 line item of `wsA`. -/
theorem lineitem_array_lengths_witness :
    (mkItem wsA 3).budget_monthly.length = 12 ∧
    (mkItem wsA 3).forecast_monthly.length = 12 ∧
    (mkItem wsA 3).actual_monthly.length = 12 ∧
    (mkItem wsA 3).bvf_monthly.length = 12 ∧
    (mkItem wsA 3).bva_monthly.length = 12 ∧
    (mkItem wsA 3).budget_quarterly.length = 4 ∧
    (mkItem wsA 3).forecast_quarterly.length = 4 ∧
    (mkItem wsA 3).actual_quarterly.length = 4 :=
  lineitem_array_lengths wbA "2026-02-03" (mkData wsA "2026-02-03") rfl
    (mkItem wsA 3) (by decide)

/-- C10: the `actuals_detail` entry of a blank-category line item keeps
the raw empty category string (no default applied), while that same
item's `committed_fy26` is accumulated under the `by_category` key
`"Other"` (the item is in the `"Other"` bucket's filter, and the bucket's
value is the exact sum over that filter). -/
theorem detail_category_not_defaulted (wb : Workbook) (today : String) (d : BudgetData)
    (hok : extractBudget wb today = Except.ok d) (it : LineItem)
    (hit : it ∈ d.line_items) (hcat : it.category = "") (hact : 0 < it.actual_fy) :
    ({ category := "", vendor := it.vendor, description := it.description,
        actual_fy := it.actual_fy } : DetailEntry) ∈ d.actuals_detail ∧
    it ∈ d.line_items.filter (fun j => catKey j == "Other") ∧
    lookupKey d.by_category "Other" =
      some (((d.line_items.filter (fun j => catKey j == "Other")).map
        LineItem.committed_fy26).sum) := by
  obtain ⟨ws, -, rfl⟩ := extract_ok_inv wb today d hok
  have hmem : it ∈ lineItemsOf ws := hit
  have hkey : catKey it = "Other" := by rw [catKey, strOr, if_pos hcat]
  have hfil : it ∈ (lineItemsOf ws).filter (fun j => catKey j == "Other") :=
    List.mem_filter.2 ⟨hmem, by simp [hkey]⟩
  refine ⟨?_, hfil, ?_⟩
  · have h1 : (mkData ws today).actuals_detail =
        (aggregatesOf (lineItemsOf ws)).actuals_detail := rfl
    rw [h1, aggregatesOf, foldl_aggStep_detail, ← hcat]
    exact List.mem_append_right _
      (List.mem_map_of_mem _ (List.mem_filter.2 ⟨hmem, by simpa using hact⟩))
  · have h2 : (mkData ws today).by_category =
        (aggregatesOf (lineItemsOf ws)).by_category := rfl
    rw [h2, aggregatesOf]
    have hgd := foldl_aggStep_bycat_getD (lineItemsOf ws)
      { by_source_fund := [], by_expense_type := [], by_category := [], actuals_detail := [] }
      "Other"
    have hsm := foldl_aggStep_bycat_isSome (lineItemsOf ws)
      { by_source_fund := [], by_expense_type := [], by_category := [], actuals_detail := [] }
      "Other"
    have hany : (lineItemsOf ws).any (fun j => catKey j == "Other") = true :=
      List.any_eq_true.2 ⟨it, hmem, by simp [hkey]⟩
    simp only [hany, lookupKey, List.find?_nil, Option.map_none', Option.isSome_none,
      Option.getD_none, Bool.false_or, zero_add] at hgd hsm
    rcases ho : List.find? (fun p => p.1 == "Other")
        (List.foldl aggStep
          { by_source_fund := [], by_expense_type := [], by_category := [],
            actuals_detail := [] } (lineItemsOf ws)).by_category with - | pv
    · rw [ho] at hsm
      simp at hsm
    · rw [ho] at hgd
      rw [lookupKey, ho]
      simp only [Option.map_some', Option.getD_some] at hgd
      simp only [Option.map_some']
      rw [hgd]
      rfl

/-- Witness for C10 at the blank-category row-3 line item of `wsC`. -/
theorem detail_category_not_defaulted_witness :
    ({ category := "", vendor := (mkItem wsC 3).vendor,
        description := (mkItem wsC 3).description,
        actual_fy := (mkItem wsC 3).actual_fy } : DetailEntry) ∈
      (mkData wsC "2026-02-03").actuals_detail ∧
    mkItem wsC 3 ∈ (mkData wsC "2026-02-03").line_items.filter
      (fun j => catKey j == "Other") ∧
    lookupKey (mkData wsC "2026-02-03").by_category "Other" =
      some ((((mkData wsC "2026-02-03").line_items.filter
        (fun j => catKey j == "Other")).map LineItem.committed_fy26).sum) :=
  detail_category_not_defaulted wbC "2026-02-03" (mkData wsC "2026-02-03") rfl
    (mkItem wsC 3) (by decide) (by decide) (by decide)

end BudgetSanity
